import Mathlib

/-
Verification of the stripe-go card and bitcoinreceiver client packages
(src/card/client.go, src/bitcoinreceiver/client.go).

The two packages are shallow-embedded below.  Helpers from the shared
stripe package (FormatURLPath, StringValue, GetIter, the parameter
structs and the form serializers) are not part of the two source files;
where an operation depends on them they are modelled from the spec, and
each such definition carries a doc comment saying so.  Backend calls are
modelled by passing an explicit backend function and recording the list
of requests an operation issues, so that "the backend is never invoked"
is the statement that this list is empty.
-/

/-- Form-encoded key-value pairs, standing for the form.Values type of the
form package (not under src/). -/
def FormValues : Type := List (String × String)

instance : DecidableEq FormValues := by
  unfold FormValues
  infer_instance

/-- Modelled from the spec: a Go error value.  Local validation errors are
created from a message string (errors.New); backend errors are opaque
values handed back by the backend, indexed here by a natural number. -/
inductive GoError : Type
  | msg (s : String)
  | backendErr (n : Nat)
deriving DecidableEq

/-- HTTP method of a request, as passed to the backend call primitives. -/
inductive Method : Type
  | GET
  | POST
  | DELETE
deriving DecidableEq

/-- Hexadecimal digit character for n < 16, uppercase, as in Go percent
escaping. -/
def hexDigit (n : Nat) : Char :=
  if n < 10 then Char.ofNat (48 + n) else Char.ofNat (55 + n)

/-- UTF-8 byte sequence of a character, as Go strings are byte sequences in
UTF-8. -/
def utf8Bytes (c : Char) : List Nat :=
  let n := c.toNat
  if n < 128 then [n]
  else if n < 2048 then [192 + n / 64, 128 + n % 64]
  else if n < 65536 then [224 + n / 4096, 128 + (n / 64) % 64, 128 + n % 64]
  else [240 + n / 262144, 128 + (n / 4096) % 64, 128 + (n / 64) % 64, 128 + n % 64]

/-- Whether a byte is kept verbatim by percent escaping: ASCII letters,
digits, and the marks - _ . ~ are unescaped. -/
def unescapedByte (b : Nat) : Bool :=
  (48 ≤ b && b ≤ 57) || (65 ≤ b && b ≤ 90) || (97 ≤ b && b ≤ 122) ||
    b == 45 || b == 95 || b == 46 || b == 126

/-- Modelled from the spec: percent-encoding of an identifier before URL
substitution ("percent-safe identifier substitution", "percent-encoding of
special characters").  Follows query escaping: unreserved bytes kept,
space becomes a plus sign, every other byte becomes a percent escape. -/
def percentEncode (s : String) : String :=
  String.mk <|
    (s.data.flatMap utf8Bytes).flatMap fun b =>
      if b == 32 then ['+']
      else if unescapedByte b then [Char.ofNat b]
      else ['%', hexDigit (b / 16), hexDigit (b % 16)]

/-- Substitution engine for FormatURLPath: each %s verb in the format is
replaced by the next parameter. -/
def substVerbs : List Char → List String → List Char
  | '%' :: 's' :: rest, p :: ps => p.data ++ substVerbs rest ps
  | c :: rest, ps => c :: substVerbs rest ps
  | [], _ => []

/-- Modelled from the spec: stripe.FormatURLPath (not under src/) builds a
URL path from a format string, substituting each %s verb with the
corresponding parameter after percent-encoding it. -/
def FormatURLPath (format : String) (params : List String) : String :=
  String.mk (substVerbs format.data (params.map percentEncode))

/-- Modelled from the spec: stripe.StringValue (not under src/) dereferences
an optional string, giving the empty string for nil. -/
def StringValue : Option String → String
  | some s => s
  | none => ""

namespace card

/-- The externally-defined card resource record.  The client code treats it
opaquely (the backend decodes into it), so it is modelled as an id plus an
association list of the remaining decoded field values. -/
structure Card where
  ID : String
  fields : List (String × String)
deriving DecidableEq

/-- Modelled from the spec: stripe.CardParams (not under src/), the
parameter object for card operations.  The client code reads the three
optional parent identifiers Account, Customer and Recipient; the remaining
optional fields are carried opaquely as an association list. -/
structure CardParams where
  Account : Option String
  Customer : Option String
  Recipient : Option String
  extra : List (String × String)
deriving DecidableEq

/-- Modelled from the spec: stripe.CardListParams (not under src/), the
parameter object for card List.  The client code reads the three optional
parent identifiers; pagination fields belong to the shared layer and are
not read here. -/
structure CardListParams where
  Account : Option String
  Customer : Option String
  Recipient : Option String
deriving DecidableEq

/-- Request body as handed to the backend, identified by the serialization
path that produced it.  Call serializes the whole parameter object through
the generic form serialization (genericForm); New builds form values with
the specialized AppendToAsCardSourceOrExternalAccount and passes them to
CallRaw (cardSourceOrExternalAccount); the List page query passes the
pagination form values to CallRaw (rawList).  The serializers live in the
stripe package, not under src/, so their output is represented
symbolically by these constructors. -/
inductive BodyEnc : Type
  | genericForm (p : CardParams)
  | cardSourceOrExternalAccount (p : CardParams)
  | rawList (b : FormValues)
deriving DecidableEq

/-- One request issued to the backend: which primitive (raw = true for
CallRaw, false for Call), the HTTP method, the URL path, the API key and
the body. -/
structure Request where
  raw : Bool
  method : Method
  path : String
  key : String
  body : BodyEnc
deriving DecidableEq

/-- Pagination metadata of a list response, modelled from the spec
("pagination metadata (cursor/has-more)"). -/
structure ListMeta where
  hasMore : Bool
deriving DecidableEq

/-- A page of card records plus pagination metadata (stripe.CardList). -/
structure CardList where
  data : List Card
  listMeta : ListMeta
deriving DecidableEq

/-- The backend consumed by the client: call decodes the response into a
single card record, callList decodes it into a card list.  Either returns
the decoded record together with an optional error. -/
structure Backend where
  call : Request → Card × Option GoError
  callList : Request → CardList × Option GoError

/-- Result of a single-record card operation: the returned card pointer
(none when a validation error prevents the call), the returned error, and
the list of backend requests issued during the operation. -/
structure OpResult where
  card : Option Card
  err : Option GoError
  calls : List Request
deriving DecidableEq

/-- Result of one advancement of the list iterator: the items of the page,
the page metadata, the error, and the backend requests issued. -/
structure QueryResult where
  items : List Card
  meta : ListMeta
  err : Option GoError
  calls : List Request
deriving DecidableEq

/-- Modelled from the spec: the iterator returned by stripe.GetIter (not
under src/).  Construction never fails; the iterator carries the list
parameters and the page query closure, and each advancement invokes the
query with the serialized pagination form values. -/
structure Iter where
  listParams : Option CardListParams
  query : FormValues → QueryResult

/-- Modelled from the spec: the first advancement of a list iterator invokes
the page query with the serialized pagination form values b. -/
def Iter.firstAdvance (i : Iter) (b : FormValues) : QueryResult :=
  i.query b

/-- The card client: a backend handle and an API key. -/
structure Client where
  B : Backend
  Key : String

/-- The validation error returned when the parameter object is nil. -/
def nilParamsErr : GoError := GoError.msg "params should not be nil"

/-- The validation error returned when no parent identifier is set. -/
def noOwnerErr : GoError :=
  GoError.msg "Invalid card params: either account, customer or recipient need to be set"

/-- Path resolution of Client.New (client.go lines 28-40): the first set
identifier in the order account, customer, recipient selects the template;
none set is a validation error. -/
def newPath (params : CardParams) : Except GoError String :=
  if params.Account.isSome then
    Except.ok (FormatURLPath "/accounts/%s/external_accounts" [StringValue params.Account])
  else if params.Customer.isSome then
    Except.ok (FormatURLPath "/customers/%s/sources" [StringValue params.Customer])
  else if params.Recipient.isSome then
    Except.ok (FormatURLPath "/recipients/%s/cards" [StringValue params.Recipient])
  else
    Except.error noOwnerErr

/-- Client.New (client.go lines 23-52): nil check, path resolution, then a
CallRaw POST whose body is built by the specialized
AppendToAsCardSourceOrExternalAccount serialization. -/
def Client.New (c : Client) (params : Option CardParams) : OpResult :=
  match params with
  | none => ⟨none, some nilParamsErr, []⟩
  | some p =>
    match newPath p with
    | Except.error e => ⟨none, some e, []⟩
    | Except.ok path =>
      let req : Request := ⟨true, Method.POST, path, c.Key, BodyEnc.cardSourceOrExternalAccount p⟩
      let r := c.B.call req
      ⟨some r.1, r.2, [req]⟩

/-- Path resolution of Client.Get (client.go lines 65-77): same precedence
chain, with the card id as second substituted parameter. -/
def getPath (id : String) (params : CardParams) : Except GoError String :=
  if params.Account.isSome then
    Except.ok (FormatURLPath "/accounts/%s/external_accounts/%s" [StringValue params.Account, id])
  else if params.Customer.isSome then
    Except.ok (FormatURLPath "/customers/%s/sources/%s" [StringValue params.Customer, id])
  else if params.Recipient.isSome then
    Except.ok (FormatURLPath "/recipients/%s/cards/%s" [StringValue params.Recipient, id])
  else
    Except.error noOwnerErr

/-- Client.Get (client.go lines 60-82): nil check, path resolution, then a
generic Call with method GET. -/
def Client.Get (c : Client) (id : String) (params : Option CardParams) : OpResult :=
  match params with
  | none => ⟨none, some nilParamsErr, []⟩
  | some p =>
    match getPath id p with
    | Except.error e => ⟨none, some e, []⟩
    | Except.ok path =>
      let req : Request := ⟨false, Method.GET, path, c.Key, BodyEnc.genericForm p⟩
      let r := c.B.call req
      ⟨some r.1, r.2, [req]⟩

/-- Path resolution of Client.Update (client.go lines 96-107), identical to
the Get chain. -/
def updatePath (id : String) (params : CardParams) : Except GoError String :=
  getPath id params

/-- Client.Update (client.go lines 91-112): nil check, path resolution, then
a generic Call with method POST. -/
def Client.Update (c : Client) (id : String) (params : Option CardParams) : OpResult :=
  match params with
  | none => ⟨none, some nilParamsErr, []⟩
  | some p =>
    match updatePath id p with
    | Except.error e => ⟨none, some e, []⟩
    | Except.ok path =>
      let req : Request := ⟨false, Method.POST, path, c.Key, BodyEnc.genericForm p⟩
      let r := c.B.call req
      ⟨some r.1, r.2, [req]⟩

/-- Path resolution of Client.Del (client.go lines 125-134), identical to
the Get chain. -/
def delPath (id : String) (params : CardParams) : Except GoError String :=
  getPath id params

/-- Client.Del (client.go lines 120-141): nil check, path resolution, then a
generic Call with method DELETE. -/
def Client.Del (c : Client) (id : String) (params : Option CardParams) : OpResult :=
  match params with
  | none => ⟨none, some nilParamsErr, []⟩
  | some p =>
    match delPath id p with
    | Except.error e => ⟨none, some e, []⟩
    | Except.ok path =>
      let req : Request := ⟨false, Method.DELETE, path, c.Key, BodyEnc.genericForm p⟩
      let r := c.B.call req
      ⟨some r.1, r.2, [req]⟩

/-- Path and outer-error resolution of Client.List (client.go lines
151-163): nil params or no identifier yield the outer error; account and
customer templates carry the extra query string object=card, recipient
does not. -/
def listPath (listParams : Option CardListParams) : Except GoError String :=
  match listParams with
  | none => Except.error nilParamsErr
  | some lp =>
    if lp.Account.isSome then
      Except.ok (FormatURLPath "/accounts/%s/external_accounts?object=card" [StringValue lp.Account])
    else if lp.Customer.isSome then
      Except.ok (FormatURLPath "/customers/%s/sources?object=card" [StringValue lp.Customer])
    else if lp.Recipient.isSome then
      Except.ok (FormatURLPath "/recipients/%s/cards" [StringValue lp.Recipient])
    else
      Except.error noOwnerErr

/-- Client.List (client.go lines 147-181): always constructs an iterator;
the page query closure returns the outer validation error, if any, before
calling the backend, and otherwise issues a raw GET with the pagination
form values and returns the decoded page. -/
def Client.List (c : Client) (listParams : Option CardListParams) : Iter :=
  ⟨listParams, fun b =>
    match listPath listParams with
    | Except.error e => ⟨[], ListMeta.mk false, some e, []⟩
    | Except.ok path =>
      let req : Request := ⟨true, Method.GET, path, c.Key, BodyEnc.rawList b⟩
      let r := c.B.callList req
      ⟨r.1.data, r.1.listMeta, r.2, [req]⟩⟩

end card

namespace bitcoinreceiver

/-- The externally-defined bitcoin receiver resource record, treated
opaquely by the client code; modelled as an id plus an association list of
the remaining decoded field values. -/
structure BitcoinReceiver where
  ID : String
  fields : List (String × String)
deriving DecidableEq

/-- Modelled from the spec: stripe.BitcoinReceiverParams (not under src/),
the parameter object for receiver New and Get.  The client code never
inspects it, so it is carried opaquely as an association list. -/
structure BitcoinReceiverParams where
  fields : List (String × String)
deriving DecidableEq

/-- Modelled from the spec: stripe.BitcoinReceiverUpdateParams (not under
src/), the parameter object for receiver Update, carried opaquely. -/
structure BitcoinReceiverUpdateParams where
  fields : List (String × String)
deriving DecidableEq

/-- Request body as handed to the backend by the receiver client: Call
serializes the given parameter object generically; the List page query
passes the pagination form values to CallRaw. -/
inductive BodyEnc : Type
  | params (p : Option BitcoinReceiverParams)
  | updateParams (p : Option BitcoinReceiverUpdateParams)
  | rawList (b : FormValues)
deriving DecidableEq

/-- One request issued to the backend by the receiver client. -/
structure Request where
  raw : Bool
  method : Method
  path : String
  key : String
  body : BodyEnc
deriving DecidableEq

/-- Pagination metadata of a receiver list response, modelled from the
spec. -/
structure ListMeta where
  hasMore : Bool
deriving DecidableEq

/-- A page of receiver records plus pagination metadata
(stripe.BitcoinReceiverList). -/
structure BitcoinReceiverList where
  data : List BitcoinReceiver
  listMeta : ListMeta
deriving DecidableEq

/-- The backend consumed by the receiver client. -/
structure Backend where
  call : Request → BitcoinReceiver × Option GoError
  callList : Request → BitcoinReceiverList × Option GoError

/-- Result of a single-record receiver operation: the returned record, the
returned error, and the backend requests issued. -/
structure OpResult where
  receiver : Option BitcoinReceiver
  err : Option GoError
  calls : List Request
deriving DecidableEq

/-- Result of one advancement of the receiver list iterator. -/
structure QueryResult where
  items : List BitcoinReceiver
  meta : ListMeta
  err : Option GoError
  calls : List Request
deriving DecidableEq

/-- Modelled from the spec: the iterator returned by stripe.GetIter for
receiver List; construction never fails and each advancement invokes the
page query with the serialized pagination form values. -/
structure Iter where
  listParams : Option (List (String × String))
  query : FormValues → QueryResult

/-- Modelled from the spec: the first advancement of a receiver list
iterator invokes the page query. -/
def Iter.firstAdvance (i : Iter) (b : FormValues) : QueryResult :=
  i.query b

/-- The receiver client: a backend handle and an API key. -/
structure Client where
  B : Backend
  Key : String

/-- Client.New (bitcoinreceiver client.go lines 24-28): an unconditional
POST to /bitcoin/receivers, decoding into a receiver record.  There is no
nil check and no branching on the parameters. -/
def Client.New (c : Client) (params : Option BitcoinReceiverParams) : OpResult :=
  let req : Request := ⟨false, Method.POST, "/bitcoin/receivers", c.Key, BodyEnc.params params⟩
  let r := c.B.call req
  ⟨some r.1, r.2, [req]⟩

/-- Client.Get (bitcoinreceiver client.go lines 36-41): an unconditional
GET to /bitcoin/receivers/{id}, decoding into a receiver record. -/
def Client.Get (c : Client) (id : String) (params : Option BitcoinReceiverParams) : OpResult :=
  let path := FormatURLPath "/bitcoin/receivers/%s" [id]
  let req : Request := ⟨false, Method.GET, path, c.Key, BodyEnc.params params⟩
  let r := c.B.call req
  ⟨some r.1, r.2, [req]⟩

/-- Client.Update (bitcoinreceiver client.go lines 49-54): an unconditional
POST to /bitcoin/receivers/{id}, decoding into a receiver record. -/
def Client.Update (c : Client) (id : String) (params : Option BitcoinReceiverUpdateParams) : OpResult :=
  let path := FormatURLPath "/bitcoin/receivers/%s" [id]
  let req : Request := ⟨false, Method.POST, path, c.Key, BodyEnc.updateParams params⟩
  let r := c.B.call req
  ⟨some r.1, r.2, [req]⟩

/-- Client.List (bitcoinreceiver client.go lines 63-75): wraps a page query
that issues a raw GET to /bitcoin/receivers with the pagination form
values and returns the decoded page. -/
def Client.List (c : Client) (listParams : Option (List (String × String))) : Iter :=
  ⟨listParams, fun b =>
    let req : Request := ⟨true, Method.GET, "/bitcoin/receivers", c.Key, BodyEnc.rawList b⟩
    let r := c.B.callList req
    ⟨r.1.data, r.1.listMeta, r.2, [req]⟩⟩

end bitcoinreceiver

/-- A trivial card backend used to instantiate theorems on concrete inputs:
every call decodes an empty record and reports no error. -/
def cardDummyBackend : card.Backend :=
  ⟨fun _ => (⟨"", []⟩, none), fun _ => (⟨[], ⟨false⟩⟩, none)⟩

/-- A concrete card client over the trivial backend. -/
def cardClient0 : card.Client := ⟨cardDummyBackend, "sk_test"⟩

/-- Concrete card params with only the account identifier set. -/
def paAcct : card.CardParams := ⟨some "acct_1", none, none, []⟩

/-- Concrete card params with only the customer identifier set. -/
def pcCust : card.CardParams := ⟨none, some "cus_123", none, []⟩

/-- Concrete card params with only the recipient identifier set. -/
def prRecip : card.CardParams := ⟨none, none, some "rp_9", []⟩

/-- Concrete card params with no parent identifier set. -/
def pNone : card.CardParams := ⟨none, none, none, []⟩

/-- Concrete card params with both the account and the customer identifier
set. -/
def pBoth : card.CardParams := ⟨some "acct_1", some "cus_1", none, []⟩

/-- Concrete list params with only the account identifier set. -/
def lpAcct : card.CardListParams := ⟨some "acct_1", none, none⟩

/-- Concrete list params with only the customer identifier set. -/
def lpCust : card.CardListParams := ⟨none, some "cus_123", none⟩

/-- Concrete list params with only the recipient identifier set. -/
def lpRecip : card.CardListParams := ⟨none, none, some "rp_9"⟩

/-- Concrete list params with no parent identifier set. -/
def lpNone : card.CardListParams := ⟨none, none, none⟩

/-- Concrete list params with both the account and the customer identifier
set. -/
def lpBoth : card.CardListParams := ⟨some "acct_1", some "cus_1", none⟩

/-- The card record served by the round-trip backend. -/
def card9 : card.Card := ⟨"card_abc", [("last4", "4242")]⟩

/-- A concrete backend that behaves stably for the round-trip scenario:
the creating POST returns card9, and a GET on the customer source path of
card9 returns the same record. -/
def card9Backend : card.Backend :=
  ⟨fun req =>
    if req.method = Method.POST then (card9, none)
    else if req.path = "/customers/cus_123/sources/card_abc" then (card9, none)
    else (⟨"", []⟩, none),
   fun _ => (⟨[], ⟨false⟩⟩, none)⟩

/-- A concrete card client over the stable round-trip backend. -/
def card9Client : card.Client := ⟨card9Backend, "sk_test"⟩

/-- A trivial receiver backend used to instantiate theorems on concrete
inputs. -/
def recvDummyBackend : bitcoinreceiver.Backend :=
  ⟨fun _ => (⟨"", []⟩, none), fun _ => (⟨[], ⟨false⟩⟩, none)⟩

/-- A concrete receiver client over the trivial backend. -/
def recvClient0 : bitcoinreceiver.Client := ⟨recvDummyBackend, "sk_test"⟩

/-- A card backend whose every call fails with an opaque backend error,
used to instantiate error-propagation theorems. -/
def cardErrBackend : card.Backend :=
  ⟨fun _ => (⟨"", []⟩, some (GoError.backendErr 7)),
   fun _ => (⟨[], ⟨false⟩⟩, some (GoError.backendErr 7))⟩

/-- A concrete card client over the erroring backend. -/
def cardErrClient : card.Client := ⟨cardErrBackend, "sk_test"⟩

/-- A receiver backend whose every call fails with an opaque backend error. -/
def recvErrBackend : bitcoinreceiver.Backend :=
  ⟨fun _ => (⟨"", []⟩, some (GoError.backendErr 9)),
   fun _ => (⟨[], ⟨false⟩⟩, some (GoError.backendErr 9))⟩

/-- A concrete receiver client over the erroring backend. -/
def recvErrClient : bitcoinreceiver.Client := ⟨recvErrBackend, "sk_test"⟩

section FormatLemmas

/-- FormatURLPath on the New account template substitutes the encoded
identifier in place of the verb. -/
theorem format_accounts (x : String) :
    FormatURLPath "/accounts/%s/external_accounts" [x]
      = "/accounts/" ++ percentEncode x ++ "/external_accounts" := by
  simp [FormatURLPath, substVerbs, String.ext_iff]

/-- FormatURLPath on the New customer template. -/
theorem format_customers (x : String) :
    FormatURLPath "/customers/%s/sources" [x]
      = "/customers/" ++ percentEncode x ++ "/sources" := by
  simp [FormatURLPath, substVerbs, String.ext_iff]

/-- FormatURLPath on the New recipient template. -/
theorem format_recipients (x : String) :
    FormatURLPath "/recipients/%s/cards" [x]
      = "/recipients/" ++ percentEncode x ++ "/cards" := by
  simp [FormatURLPath, substVerbs, String.ext_iff]

/-- FormatURLPath on the id-bearing account template. -/
theorem format_accounts_id (x y : String) :
    FormatURLPath "/accounts/%s/external_accounts/%s" [x, y]
      = "/accounts/" ++ percentEncode x ++ "/external_accounts/" ++ percentEncode y := by
  simp [FormatURLPath, substVerbs, String.ext_iff]

/-- FormatURLPath on the id-bearing customer template. -/
theorem format_customers_id (x y : String) :
    FormatURLPath "/customers/%s/sources/%s" [x, y]
      = "/customers/" ++ percentEncode x ++ "/sources/" ++ percentEncode y := by
  simp [FormatURLPath, substVerbs, String.ext_iff]

/-- FormatURLPath on the id-bearing recipient template. -/
theorem format_recipients_id (x y : String) :
    FormatURLPath "/recipients/%s/cards/%s" [x, y]
      = "/recipients/" ++ percentEncode x ++ "/cards/" ++ percentEncode y := by
  simp [FormatURLPath, substVerbs, String.ext_iff]

/-- FormatURLPath on the List account template, keeping the literal query
string. -/
theorem format_accounts_list (x : String) :
    FormatURLPath "/accounts/%s/external_accounts?object=card" [x]
      = "/accounts/" ++ percentEncode x ++ "/external_accounts?object=card" := by
  simp [FormatURLPath, substVerbs, String.ext_iff]

/-- FormatURLPath on the List customer template, keeping the literal query
string. -/
theorem format_customers_list (x : String) :
    FormatURLPath "/customers/%s/sources?object=card" [x]
      = "/customers/" ++ percentEncode x ++ "/sources?object=card" := by
  simp [FormatURLPath, substVerbs, String.ext_iff]

/-- FormatURLPath on the receiver id template. -/
theorem format_receivers_id (x : String) :
    FormatURLPath "/bitcoin/receivers/%s" [x]
      = "/bitcoin/receivers/" ++ percentEncode x := by
  simp [FormatURLPath, substVerbs, String.ext_iff]

end FormatLemmas

namespace card

/-- With the account identifier set, newPath picks the account template. -/
theorem newPath_account (p : CardParams) (a : String) (h : p.Account = some a) :
    newPath p = Except.ok ("/accounts/" ++ percentEncode a ++ "/external_accounts") := by
  simp [newPath, h, StringValue, format_accounts]

/-- With no account but a customer identifier, newPath picks the customer
template. -/
theorem newPath_customer (p : CardParams) (cu : String)
    (hA : p.Account = none) (h : p.Customer = some cu) :
    newPath p = Except.ok ("/customers/" ++ percentEncode cu ++ "/sources") := by
  simp [newPath, hA, h, StringValue, format_customers]

/-- With neither account nor customer but a recipient identifier, newPath
picks the recipient template. -/
theorem newPath_recipient (p : CardParams) (r : String)
    (hA : p.Account = none) (hC : p.Customer = none) (h : p.Recipient = some r) :
    newPath p = Except.ok ("/recipients/" ++ percentEncode r ++ "/cards") := by
  simp [newPath, hA, hC, h, StringValue, format_recipients]

/-- With no identifier set, newPath is the validation error. -/
theorem newPath_none (p : CardParams)
    (hA : p.Account = none) (hC : p.Customer = none) (hR : p.Recipient = none) :
    newPath p = Except.error noOwnerErr := by
  simp [newPath, hA, hC, hR]

/-- With the account identifier set, getPath picks the account template. -/
theorem getPath_account (id : String) (p : CardParams) (a : String) (h : p.Account = some a) :
    getPath id p
      = Except.ok ("/accounts/" ++ percentEncode a ++ "/external_accounts/" ++ percentEncode id) := by
  simp [getPath, h, StringValue, format_accounts_id]

/-- With no account but a customer identifier, getPath picks the customer
template. -/
theorem getPath_customer (id : String) (p : CardParams) (cu : String)
    (hA : p.Account = none) (h : p.Customer = some cu) :
    getPath id p
      = Except.ok ("/customers/" ++ percentEncode cu ++ "/sources/" ++ percentEncode id) := by
  simp [getPath, hA, h, StringValue, format_customers_id]

/-- With neither account nor customer but a recipient identifier, getPath
picks the recipient template. -/
theorem getPath_recipient (id : String) (p : CardParams) (r : String)
    (hA : p.Account = none) (hC : p.Customer = none) (h : p.Recipient = some r) :
    getPath id p
      = Except.ok ("/recipients/" ++ percentEncode r ++ "/cards/" ++ percentEncode id) := by
  simp [getPath, hA, hC, h, StringValue, format_recipients_id]

/-- With no identifier set, getPath is the validation error. -/
theorem getPath_none (id : String) (p : CardParams)
    (hA : p.Account = none) (hC : p.Customer = none) (hR : p.Recipient = none) :
    getPath id p = Except.error noOwnerErr := by
  simp [getPath, hA, hC, hR]

/-- With the account identifier set, listPath picks the account template
with the object=card query string. -/
theorem listPath_account (lp : CardListParams) (a : String) (h : lp.Account = some a) :
    listPath (some lp)
      = Except.ok ("/accounts/" ++ percentEncode a ++ "/external_accounts?object=card") := by
  simp [listPath, h, StringValue, format_accounts_list]

/-- With no account but a customer identifier, listPath picks the customer
template with the object=card query string. -/
theorem listPath_customer (lp : CardListParams) (cu : String)
    (hA : lp.Account = none) (h : lp.Customer = some cu) :
    listPath (some lp)
      = Except.ok ("/customers/" ++ percentEncode cu ++ "/sources?object=card") := by
  simp [listPath, hA, h, StringValue, format_customers_list]

/-- With neither account nor customer but a recipient identifier, listPath
picks the recipient template with no query string. -/
theorem listPath_recipient (lp : CardListParams) (r : String)
    (hA : lp.Account = none) (hC : lp.Customer = none) (h : lp.Recipient = some r) :
    listPath (some lp)
      = Except.ok ("/recipients/" ++ percentEncode r ++ "/cards") := by
  simp [listPath, hA, hC, h, StringValue, format_recipients]

/-- With no identifier set, listPath is the validation error. -/
theorem listPath_noneSet (lp : CardListParams)
    (hA : lp.Account = none) (hC : lp.Customer = none) (hR : lp.Recipient = none) :
    listPath (some lp) = Except.error noOwnerErr := by
  simp [listPath, hA, hC, hR]

end card

namespace card

/-- When path resolution succeeds, New issues exactly one raw POST with the
specialized body and returns the decoded record and the backend error. -/
theorem New_ok (c : Client) (p : CardParams) (s : String) (h : newPath p = Except.ok s) :
    c.New (some p)
      = ⟨some (c.B.call ⟨true, Method.POST, s, c.Key, BodyEnc.cardSourceOrExternalAccount p⟩).1,
         (c.B.call ⟨true, Method.POST, s, c.Key, BodyEnc.cardSourceOrExternalAccount p⟩).2,
         [⟨true, Method.POST, s, c.Key, BodyEnc.cardSourceOrExternalAccount p⟩]⟩ := by
  simp [Client.New, h]

/-- When path resolution fails, New returns the validation error and issues
no backend call. -/
theorem New_err (c : Client) (p : CardParams) (e : GoError) (h : newPath p = Except.error e) :
    c.New (some p) = ⟨none, some e, []⟩ := by
  simp [Client.New, h]

/-- When path resolution succeeds, Get issues exactly one generic GET and
returns the decoded record and the backend error. -/
theorem Get_ok (c : Client) (id : String) (p : CardParams) (s : String)
    (h : getPath id p = Except.ok s) :
    c.Get id (some p)
      = ⟨some (c.B.call ⟨false, Method.GET, s, c.Key, BodyEnc.genericForm p⟩).1,
         (c.B.call ⟨false, Method.GET, s, c.Key, BodyEnc.genericForm p⟩).2,
         [⟨false, Method.GET, s, c.Key, BodyEnc.genericForm p⟩]⟩ := by
  simp [Client.Get, h]

/-- When path resolution fails, Get returns the validation error and issues
no backend call. -/
theorem Get_err (c : Client) (id : String) (p : CardParams) (e : GoError)
    (h : getPath id p = Except.error e) :
    c.Get id (some p) = ⟨none, some e, []⟩ := by
  simp [Client.Get, h]

/-- When path resolution succeeds, Update issues exactly one generic POST
and returns the decoded record and the backend error. -/
theorem Update_ok (c : Client) (id : String) (p : CardParams) (s : String)
    (h : getPath id p = Except.ok s) :
    c.Update id (some p)
      = ⟨some (c.B.call ⟨false, Method.POST, s, c.Key, BodyEnc.genericForm p⟩).1,
         (c.B.call ⟨false, Method.POST, s, c.Key, BodyEnc.genericForm p⟩).2,
         [⟨false, Method.POST, s, c.Key, BodyEnc.genericForm p⟩]⟩ := by
  simp [Client.Update, updatePath, h]

/-- When path resolution fails, Update returns the validation error and
issues no backend call. -/
theorem Update_err (c : Client) (id : String) (p : CardParams) (e : GoError)
    (h : getPath id p = Except.error e) :
    c.Update id (some p) = ⟨none, some e, []⟩ := by
  simp [Client.Update, updatePath, h]

/-- When path resolution succeeds, Del issues exactly one generic DELETE and
returns the decoded record and the backend error. -/
theorem Del_ok (c : Client) (id : String) (p : CardParams) (s : String)
    (h : getPath id p = Except.ok s) :
    c.Del id (some p)
      = ⟨some (c.B.call ⟨false, Method.DELETE, s, c.Key, BodyEnc.genericForm p⟩).1,
         (c.B.call ⟨false, Method.DELETE, s, c.Key, BodyEnc.genericForm p⟩).2,
         [⟨false, Method.DELETE, s, c.Key, BodyEnc.genericForm p⟩]⟩ := by
  simp [Client.Del, delPath, h]

/-- When path resolution fails, Del returns the validation error and issues
no backend call. -/
theorem Del_err (c : Client) (id : String) (p : CardParams) (e : GoError)
    (h : getPath id p = Except.error e) :
    c.Del id (some p) = ⟨none, some e, []⟩ := by
  simp [Client.Del, delPath, h]

/-- When list path resolution succeeds, each advancement of the List
iterator issues exactly one raw GET with the pagination form values. -/
theorem List_ok (c : Client) (lp : Option CardListParams) (s : String) (b : FormValues)
    (h : listPath lp = Except.ok s) :
    (c.List lp).firstAdvance b
      = ⟨(c.B.callList ⟨true, Method.GET, s, c.Key, BodyEnc.rawList b⟩).1.data,
         (c.B.callList ⟨true, Method.GET, s, c.Key, BodyEnc.rawList b⟩).1.listMeta,
         (c.B.callList ⟨true, Method.GET, s, c.Key, BodyEnc.rawList b⟩).2,
         [⟨true, Method.GET, s, c.Key, BodyEnc.rawList b⟩]⟩ := by
  simp [Client.List, Iter.firstAdvance, h]

/-- When list path resolution fails, each advancement of the List iterator
returns the outer error and issues no backend call. -/
theorem List_err (c : Client) (lp : Option CardListParams) (e : GoError) (b : FormValues)
    (h : listPath lp = Except.error e) :
    (c.List lp).firstAdvance b = ⟨[], ListMeta.mk false, some e, []⟩ := by
  simp [Client.List, Iter.firstAdvance, h]

end card

/-- C3: for every card operation (New, Get, Update, Del) called with a nil
parameter object, the operation returns the validation error "params
should not be nil" and issues no backend call. -/
theorem C3_nil_params (c : card.Client) (id : String) :
    c.New none = ⟨none, some card.nilParamsErr, []⟩ ∧
    c.Get id none = ⟨none, some card.nilParamsErr, []⟩ ∧
    c.Update id none = ⟨none, some card.nilParamsErr, []⟩ ∧
    c.Del id none = ⟨none, some card.nilParamsErr, []⟩ :=
  ⟨rfl, rfl, rfl, rfl⟩

/-- C4: card List always constructs an iterator (first conjunct: for any
list parameters, even nil, the result is an iterator carrying them); when
owner resolution fails (nil params or no parent identifier set), the
validation error is surfaced only by the first advancement of the
iterator, with no backend call made. -/
theorem C4_list_deferred (c : card.Client) (b : FormValues)
    (lpAny : Option card.CardListParams) (lp : card.CardListParams)
    (h1 : lp.Account = none) (h2 : lp.Customer = none) (h3 : lp.Recipient = none) :
    (∃ q, c.List lpAny = ⟨lpAny, q⟩) ∧
    (c.List none).firstAdvance b
      = ⟨[], card.ListMeta.mk false, some card.nilParamsErr, []⟩ ∧
    (c.List (some lp)).firstAdvance b
      = ⟨[], card.ListMeta.mk false, some card.noOwnerErr, []⟩ :=
  ⟨⟨_, rfl⟩,
   card.List_err c none card.nilParamsErr b rfl,
   card.List_err c (some lp) card.noOwnerErr b (card.listPath_noneSet lp h1 h2 h3)⟩

/-- Witness for C4 at concrete inputs: nil list params and list params with
no parent identifier both yield an iterator whose first advancement
returns the corresponding validation error with no backend call. -/
theorem C4_list_deferred_witness :
    (∃ q, cardClient0.List (some lpNone) = ⟨some lpNone, q⟩) ∧
    (cardClient0.List none).firstAdvance []
      = ⟨[], card.ListMeta.mk false, some card.nilParamsErr, []⟩ ∧
    (cardClient0.List (some lpNone)).firstAdvance []
      = ⟨[], card.ListMeta.mk false, some card.noOwnerErr, []⟩ :=
  C4_list_deferred cardClient0 [] (some lpNone) lpNone rfl rfl rfl

/-- C1: for every card operation (New, Get, Update, Del) called with exactly
one of the account, customer, recipient identifiers set, the constructed
URL path equals the corresponding template with the identifier and card id
substituted after percent-encoding. -/
theorem C1_card_paths (c : card.Client) (id a cu r : String)
    (pa pc pr : card.CardParams)
    (ha1 : pa.Account = some a) (ha2 : pa.Customer = none) (ha3 : pa.Recipient = none)
    (hc1 : pc.Account = none) (hc2 : pc.Customer = some cu) (hc3 : pc.Recipient = none)
    (hr1 : pr.Account = none) (hr2 : pr.Customer = none) (hr3 : pr.Recipient = some r) :
    (c.New (some pa)).calls.map card.Request.path
      = ["/accounts/" ++ percentEncode a ++ "/external_accounts"] ∧
    (c.Get id (some pa)).calls.map card.Request.path
      = ["/accounts/" ++ percentEncode a ++ "/external_accounts/" ++ percentEncode id] ∧
    (c.Update id (some pa)).calls.map card.Request.path
      = ["/accounts/" ++ percentEncode a ++ "/external_accounts/" ++ percentEncode id] ∧
    (c.Del id (some pa)).calls.map card.Request.path
      = ["/accounts/" ++ percentEncode a ++ "/external_accounts/" ++ percentEncode id] ∧
    (c.New (some pc)).calls.map card.Request.path
      = ["/customers/" ++ percentEncode cu ++ "/sources"] ∧
    (c.Get id (some pc)).calls.map card.Request.path
      = ["/customers/" ++ percentEncode cu ++ "/sources/" ++ percentEncode id] ∧
    (c.Update id (some pc)).calls.map card.Request.path
      = ["/customers/" ++ percentEncode cu ++ "/sources/" ++ percentEncode id] ∧
    (c.Del id (some pc)).calls.map card.Request.path
      = ["/customers/" ++ percentEncode cu ++ "/sources/" ++ percentEncode id] ∧
    (c.New (some pr)).calls.map card.Request.path
      = ["/recipients/" ++ percentEncode r ++ "/cards"] ∧
    (c.Get id (some pr)).calls.map card.Request.path
      = ["/recipients/" ++ percentEncode r ++ "/cards/" ++ percentEncode id] ∧
    (c.Update id (some pr)).calls.map card.Request.path
      = ["/recipients/" ++ percentEncode r ++ "/cards/" ++ percentEncode id] ∧
    (c.Del id (some pr)).calls.map card.Request.path
      = ["/recipients/" ++ percentEncode r ++ "/cards/" ++ percentEncode id] := by
  refine ⟨?_, ?_, ?_, ?_, ?_, ?_, ?_, ?_, ?_, ?_, ?_, ?_⟩
  · rw [card.New_ok c pa _ (card.newPath_account pa a ha1)]; rfl
  · rw [card.Get_ok c id pa _ (card.getPath_account id pa a ha1)]; rfl
  · rw [card.Update_ok c id pa _ (card.getPath_account id pa a ha1)]; rfl
  · rw [card.Del_ok c id pa _ (card.getPath_account id pa a ha1)]; rfl
  · rw [card.New_ok c pc _ (card.newPath_customer pc cu hc1 hc2)]; rfl
  · rw [card.Get_ok c id pc _ (card.getPath_customer id pc cu hc1 hc2)]; rfl
  · rw [card.Update_ok c id pc _ (card.getPath_customer id pc cu hc1 hc2)]; rfl
  · rw [card.Del_ok c id pc _ (card.getPath_customer id pc cu hc1 hc2)]; rfl
  · rw [card.New_ok c pr _ (card.newPath_recipient pr r hr1 hr2 hr3)]; rfl
  · rw [card.Get_ok c id pr _ (card.getPath_recipient id pr r hr1 hr2 hr3)]; rfl
  · rw [card.Update_ok c id pr _ (card.getPath_recipient id pr r hr1 hr2 hr3)]; rfl
  · rw [card.Del_ok c id pr _ (card.getPath_recipient id pr r hr1 hr2 hr3)]; rfl

/-- Witness for C1 at concrete inputs, matching the spec example: card
params with customer cus_123 and Get on card_abc yield the path
/customers/cus_123/sources/card_abc. -/
theorem C1_card_paths_witness :
    (cardClient0.Get "card_abc" (some pcCust)).calls.map card.Request.path
      = ["/customers/cus_123/sources/card_abc"] := by
  have h := C1_card_paths cardClient0 "card_abc" "acct_1" "cus_123" "rp_9"
    paAcct pcCust prRecip rfl rfl rfl rfl rfl rfl rfl rfl rfl
  rw [h.2.2.2.2.2.1]
  decide

namespace card

/-- When some parent identifier is set, newPath succeeds. -/
theorem newPath_ok_of_owner (p : CardParams)
    (h : p.Account.isSome ∨ p.Customer.isSome ∨ p.Recipient.isSome) :
    ∃ s, newPath p = Except.ok s := by
  cases hA : p.Account with
  | some a => exact ⟨_, newPath_account p a hA⟩
  | none =>
    cases hC : p.Customer with
    | some cu => exact ⟨_, newPath_customer p cu hA hC⟩
    | none =>
      cases hR : p.Recipient with
      | some r => exact ⟨_, newPath_recipient p r hA hC hR⟩
      | none =>
        rcases h with h | h | h <;> simp [hA, hC, hR] at h

/-- When some parent identifier is set, getPath succeeds. -/
theorem getPath_ok_of_owner (id : String) (p : CardParams)
    (h : p.Account.isSome ∨ p.Customer.isSome ∨ p.Recipient.isSome) :
    ∃ s, getPath id p = Except.ok s := by
  cases hA : p.Account with
  | some a => exact ⟨_, getPath_account id p a hA⟩
  | none =>
    cases hC : p.Customer with
    | some cu => exact ⟨_, getPath_customer id p cu hA hC⟩
    | none =>
      cases hR : p.Recipient with
      | some r => exact ⟨_, getPath_recipient id p r hA hC hR⟩
      | none =>
        rcases h with h | h | h <;> simp [hA, hC, hR] at h

/-- When some parent identifier is set, listPath succeeds. -/
theorem listPath_ok_of_owner (lp : CardListParams)
    (h : lp.Account.isSome ∨ lp.Customer.isSome ∨ lp.Recipient.isSome) :
    ∃ s, listPath (some lp) = Except.ok s := by
  cases hA : lp.Account with
  | some a => exact ⟨_, listPath_account lp a hA⟩
  | none =>
    cases hC : lp.Customer with
    | some cu => exact ⟨_, listPath_customer lp cu hA hC⟩
    | none =>
      cases hR : lp.Recipient with
      | some r => exact ⟨_, listPath_recipient lp r hA hC hR⟩
      | none =>
        rcases h with h | h | h <;> simp [hA, hC, hR] at h

/-- When newPath succeeds, some parent identifier is set. -/
theorem owner_of_newPath_ok (p : CardParams) (s : String) (h : newPath p = Except.ok s) :
    p.Account.isSome ∨ p.Customer.isSome ∨ p.Recipient.isSome := by
  cases hA : p.Account with
  | some a => exact Or.inl (by simp [hA])
  | none =>
    cases hC : p.Customer with
    | some cu => exact Or.inr (Or.inl (by simp [hC]))
    | none =>
      cases hR : p.Recipient with
      | some r => exact Or.inr (Or.inr (by simp [hR]))
      | none => rw [newPath_none p hA hC hR] at h; cases h

end card

/-- C5: for every card operation (New, Get, Update, Del, List), owner
resolution inspects the parent identifiers in the fixed precedence order
account, then customer, then recipient: the URL template chosen
corresponds to the first identifier in that order that is set, the later
identifiers being irrelevant. -/
theorem C5_precedence (c : card.Client) (id a cu r : String) (b : FormValues)
    (pa pc pr : card.CardParams) (lpa lpc lpr : card.CardListParams)
    (ha : pa.Account = some a)
    (hc1 : pc.Account = none) (hc2 : pc.Customer = some cu)
    (hr1 : pr.Account = none) (hr2 : pr.Customer = none) (hr3 : pr.Recipient = some r)
    (la : lpa.Account = some a)
    (lc1 : lpc.Account = none) (lc2 : lpc.Customer = some cu)
    (lr1 : lpr.Account = none) (lr2 : lpr.Customer = none) (lr3 : lpr.Recipient = some r) :
    (c.New (some pa)).calls.map card.Request.path
      = ["/accounts/" ++ percentEncode a ++ "/external_accounts"] ∧
    (c.Get id (some pa)).calls.map card.Request.path
      = ["/accounts/" ++ percentEncode a ++ "/external_accounts/" ++ percentEncode id] ∧
    (c.Update id (some pa)).calls.map card.Request.path
      = ["/accounts/" ++ percentEncode a ++ "/external_accounts/" ++ percentEncode id] ∧
    (c.Del id (some pa)).calls.map card.Request.path
      = ["/accounts/" ++ percentEncode a ++ "/external_accounts/" ++ percentEncode id] ∧
    ((c.List (some lpa)).firstAdvance b).calls.map card.Request.path
      = ["/accounts/" ++ percentEncode a ++ "/external_accounts?object=card"] ∧
    (c.New (some pc)).calls.map card.Request.path
      = ["/customers/" ++ percentEncode cu ++ "/sources"] ∧
    (c.Get id (some pc)).calls.map card.Request.path
      = ["/customers/" ++ percentEncode cu ++ "/sources/" ++ percentEncode id] ∧
    (c.Update id (some pc)).calls.map card.Request.path
      = ["/customers/" ++ percentEncode cu ++ "/sources/" ++ percentEncode id] ∧
    (c.Del id (some pc)).calls.map card.Request.path
      = ["/customers/" ++ percentEncode cu ++ "/sources/" ++ percentEncode id] ∧
    ((c.List (some lpc)).firstAdvance b).calls.map card.Request.path
      = ["/customers/" ++ percentEncode cu ++ "/sources?object=card"] ∧
    (c.New (some pr)).calls.map card.Request.path
      = ["/recipients/" ++ percentEncode r ++ "/cards"] ∧
    (c.Get id (some pr)).calls.map card.Request.path
      = ["/recipients/" ++ percentEncode r ++ "/cards/" ++ percentEncode id] ∧
    (c.Update id (some pr)).calls.map card.Request.path
      = ["/recipients/" ++ percentEncode r ++ "/cards/" ++ percentEncode id] ∧
    (c.Del id (some pr)).calls.map card.Request.path
      = ["/recipients/" ++ percentEncode r ++ "/cards/" ++ percentEncode id] ∧
    ((c.List (some lpr)).firstAdvance b).calls.map card.Request.path
      = ["/recipients/" ++ percentEncode r ++ "/cards"] := by
  refine ⟨?_, ?_, ?_, ?_, ?_, ?_, ?_, ?_, ?_, ?_, ?_, ?_, ?_, ?_, ?_⟩
  · rw [card.New_ok c pa _ (card.newPath_account pa a ha)]; rfl
  · rw [card.Get_ok c id pa _ (card.getPath_account id pa a ha)]; rfl
  · rw [card.Update_ok c id pa _ (card.getPath_account id pa a ha)]; rfl
  · rw [card.Del_ok c id pa _ (card.getPath_account id pa a ha)]; rfl
  · rw [card.List_ok c (some lpa) _ b (card.listPath_account lpa a la)]; rfl
  · rw [card.New_ok c pc _ (card.newPath_customer pc cu hc1 hc2)]; rfl
  · rw [card.Get_ok c id pc _ (card.getPath_customer id pc cu hc1 hc2)]; rfl
  · rw [card.Update_ok c id pc _ (card.getPath_customer id pc cu hc1 hc2)]; rfl
  · rw [card.Del_ok c id pc _ (card.getPath_customer id pc cu hc1 hc2)]; rfl
  · rw [card.List_ok c (some lpc) _ b (card.listPath_customer lpc cu lc1 lc2)]; rfl
  · rw [card.New_ok c pr _ (card.newPath_recipient pr r hr1 hr2 hr3)]; rfl
  · rw [card.Get_ok c id pr _ (card.getPath_recipient id pr r hr1 hr2 hr3)]; rfl
  · rw [card.Update_ok c id pr _ (card.getPath_recipient id pr r hr1 hr2 hr3)]; rfl
  · rw [card.Del_ok c id pr _ (card.getPath_recipient id pr r hr1 hr2 hr3)]; rfl
  · rw [card.List_ok c (some lpr) _ b (card.listPath_recipient lpr r lr1 lr2 lr3)]; rfl

/-- Witness for C5 at concrete inputs: with both account and customer set,
New takes the account template, exhibiting the precedence order. -/
theorem C5_precedence_witness :
    (cardClient0.New (some pBoth)).calls.map card.Request.path
      = ["/accounts/acct_1/external_accounts"] := by
  have h := C5_precedence cardClient0 "card_abc" "acct_1" "cus_123" "rp_9" []
    pBoth pcCust prRecip lpBoth lpCust lpRecip
    rfl rfl rfl rfl rfl rfl rfl rfl rfl rfl rfl rfl
  rw [h.1]
  decide

/-- Counterexample to C2 as stated: with both the account and the customer
identifier set (more than one parent identifier), New does not return a
validation error and the backend is invoked. -/
theorem C2_counterexample :
    (cardClient0.New (some pBoth)).err = none ∧
    (cardClient0.New (some pBoth)).calls ≠ [] := by
  decide

/-- C2 amended: with a non-nil parameter object in which zero parent
identifiers are set, every card operation (New, Get, Update, Del, and the
first advancement of the List iterator) returns the validation error with
no backend call; when more than one identifier is set, the operations do
not fail validation and the backend is invoked (with the template of the
first set identifier in precedence order, per C5). -/
theorem C2_amended (c : card.Client) (id : String) (b : FormValues)
    (p : card.CardParams) (lp : card.CardListParams)
    (pm : card.CardParams) (lpm : card.CardListParams)
    (h1 : p.Account = none) (h2 : p.Customer = none) (h3 : p.Recipient = none)
    (l1 : lp.Account = none) (l2 : lp.Customer = none) (l3 : lp.Recipient = none)
    (hm : (pm.Account.isSome ∧ pm.Customer.isSome) ∨
          (pm.Account.isSome ∧ pm.Recipient.isSome) ∨
          (pm.Customer.isSome ∧ pm.Recipient.isSome))
    (hlm : (lpm.Account.isSome ∧ lpm.Customer.isSome) ∨
           (lpm.Account.isSome ∧ lpm.Recipient.isSome) ∨
           (lpm.Customer.isSome ∧ lpm.Recipient.isSome)) :
    c.New (some p) = ⟨none, some card.noOwnerErr, []⟩ ∧
    c.Get id (some p) = ⟨none, some card.noOwnerErr, []⟩ ∧
    c.Update id (some p) = ⟨none, some card.noOwnerErr, []⟩ ∧
    c.Del id (some p) = ⟨none, some card.noOwnerErr, []⟩ ∧
    (c.List (some lp)).firstAdvance b
      = ⟨[], card.ListMeta.mk false, some card.noOwnerErr, []⟩ ∧
    (c.New (some pm)).calls ≠ [] ∧
    (c.Get id (some pm)).calls ≠ [] ∧
    (c.Update id (some pm)).calls ≠ [] ∧
    (c.Del id (some pm)).calls ≠ [] ∧
    ((c.List (some lpm)).firstAdvance b).calls ≠ [] := by
  have howner : pm.Account.isSome ∨ pm.Customer.isSome ∨ pm.Recipient.isSome := by
    rcases hm with ⟨h, _⟩ | ⟨h, _⟩ | ⟨h, _⟩
    · exact Or.inl h
    · exact Or.inl h
    · exact Or.inr (Or.inl h)
  have hlowner : lpm.Account.isSome ∨ lpm.Customer.isSome ∨ lpm.Recipient.isSome := by
    rcases hlm with ⟨h, _⟩ | ⟨h, _⟩ | ⟨h, _⟩
    · exact Or.inl h
    · exact Or.inl h
    · exact Or.inr (Or.inl h)
  obtain ⟨sn, hsn⟩ := card.newPath_ok_of_owner pm howner
  obtain ⟨sg, hsg⟩ := card.getPath_ok_of_owner id pm howner
  obtain ⟨sl, hsl⟩ := card.listPath_ok_of_owner lpm hlowner
  refine ⟨?_, ?_, ?_, ?_, ?_, ?_, ?_, ?_, ?_, ?_⟩
  · exact card.New_err c p _ (card.newPath_none p h1 h2 h3)
  · exact card.Get_err c id p _ (card.getPath_none id p h1 h2 h3)
  · exact card.Update_err c id p _ (card.getPath_none id p h1 h2 h3)
  · exact card.Del_err c id p _ (card.getPath_none id p h1 h2 h3)
  · exact card.List_err c (some lp) _ b (card.listPath_noneSet lp l1 l2 l3)
  · rw [card.New_ok c pm sn hsn]; simp
  · rw [card.Get_ok c id pm sg hsg]; simp
  · rw [card.Update_ok c id pm sg hsg]; simp
  · rw [card.Del_ok c id pm sg hsg]; simp
  · rw [card.List_ok c (some lpm) sl b hsl]; simp

/-- Witness for the amended C2 at concrete inputs: with no parent identifier
New fails validation without a backend call, and with both account and
customer set New invokes the backend. -/
theorem C2_amended_witness :
    cardClient0.New (some pNone) = ⟨none, some card.noOwnerErr, []⟩ ∧
    (cardClient0.New (some pBoth)).calls ≠ [] := by
  have h := C2_amended cardClient0 "card_abc" [] pNone lpNone pBoth lpBoth
    rfl rfl rfl rfl rfl rfl (Or.inl ⟨rfl, rfl⟩) (Or.inl ⟨rfl, rfl⟩)
  exact ⟨h.1, h.2.2.2.2.2.1⟩

/-- C10: with the account identifier set, card List requests the account
external-accounts path with the extra query string object=card; with the
customer identifier set, the customer sources path with object=card; with
the recipient identifier set, the recipient cards path with no query
string. -/
theorem C10_list_paths (c : card.Client) (b : FormValues) (a cu r : String)
    (lpa lpc lpr : card.CardListParams)
    (la : lpa.Account = some a)
    (lc1 : lpc.Account = none) (lc2 : lpc.Customer = some cu)
    (lr1 : lpr.Account = none) (lr2 : lpr.Customer = none) (lr3 : lpr.Recipient = some r) :
    ((c.List (some lpa)).firstAdvance b).calls.map card.Request.path
      = ["/accounts/" ++ percentEncode a ++ "/external_accounts?object=card"] ∧
    ((c.List (some lpc)).firstAdvance b).calls.map card.Request.path
      = ["/customers/" ++ percentEncode cu ++ "/sources?object=card"] ∧
    ((c.List (some lpr)).firstAdvance b).calls.map card.Request.path
      = ["/recipients/" ++ percentEncode r ++ "/cards"] := by
  refine ⟨?_, ?_, ?_⟩
  · rw [card.List_ok c (some lpa) _ b (card.listPath_account lpa a la)]; rfl
  · rw [card.List_ok c (some lpc) _ b (card.listPath_customer lpc cu lc1 lc2)]; rfl
  · rw [card.List_ok c (some lpr) _ b (card.listPath_recipient lpr r lr1 lr2 lr3)]; rfl

/-- Witness for C10 at concrete inputs: the three concrete list paths. -/
theorem C10_list_paths_witness :
    ((cardClient0.List (some lpAcct)).firstAdvance []).calls.map card.Request.path
      = ["/accounts/acct_1/external_accounts?object=card"] ∧
    ((cardClient0.List (some lpCust)).firstAdvance []).calls.map card.Request.path
      = ["/customers/cus_123/sources?object=card"] ∧
    ((cardClient0.List (some lpRecip)).firstAdvance []).calls.map card.Request.path
      = ["/recipients/rp_9/cards"] := by
  have h := C10_list_paths cardClient0 [] "acct_1" "cus_123" "rp_9"
    lpAcct lpCust lpRecip rfl rfl rfl rfl rfl rfl
  refine ⟨?_, ?_, ?_⟩
  · rw [h.1]; decide
  · rw [h.2.1]; decide
  · rw [h.2.2]; decide

/-- C7: for every input, the bitcoin receiver operations use the fixed
paths and methods with no branching on the parameters: New issues POST to
/bitcoin/receivers, Get issues GET and Update issues POST to the
receivers path with the percent-encoded id appended, and the List page
query issues a raw GET to /bitcoin/receivers; each decodes the response
into a receiver record. -/
theorem C7_receiver_fixed (bc : bitcoinreceiver.Client) (id : String) (b : FormValues)
    (rp : Option bitcoinreceiver.BitcoinReceiverParams)
    (up : Option bitcoinreceiver.BitcoinReceiverUpdateParams)
    (lps : Option (List (String × String))) :
    bc.New rp
      = ⟨some (bc.B.call ⟨false, Method.POST, "/bitcoin/receivers", bc.Key,
            bitcoinreceiver.BodyEnc.params rp⟩).1,
         (bc.B.call ⟨false, Method.POST, "/bitcoin/receivers", bc.Key,
            bitcoinreceiver.BodyEnc.params rp⟩).2,
         [⟨false, Method.POST, "/bitcoin/receivers", bc.Key,
            bitcoinreceiver.BodyEnc.params rp⟩]⟩ ∧
    bc.Get id rp
      = ⟨some (bc.B.call ⟨false, Method.GET, "/bitcoin/receivers/" ++ percentEncode id, bc.Key,
            bitcoinreceiver.BodyEnc.params rp⟩).1,
         (bc.B.call ⟨false, Method.GET, "/bitcoin/receivers/" ++ percentEncode id, bc.Key,
            bitcoinreceiver.BodyEnc.params rp⟩).2,
         [⟨false, Method.GET, "/bitcoin/receivers/" ++ percentEncode id, bc.Key,
            bitcoinreceiver.BodyEnc.params rp⟩]⟩ ∧
    bc.Update id up
      = ⟨some (bc.B.call ⟨false, Method.POST, "/bitcoin/receivers/" ++ percentEncode id, bc.Key,
            bitcoinreceiver.BodyEnc.updateParams up⟩).1,
         (bc.B.call ⟨false, Method.POST, "/bitcoin/receivers/" ++ percentEncode id, bc.Key,
            bitcoinreceiver.BodyEnc.updateParams up⟩).2,
         [⟨false, Method.POST, "/bitcoin/receivers/" ++ percentEncode id, bc.Key,
            bitcoinreceiver.BodyEnc.updateParams up⟩]⟩ ∧
    (bc.List lps).firstAdvance b
      = ⟨(bc.B.callList ⟨true, Method.GET, "/bitcoin/receivers", bc.Key,
            bitcoinreceiver.BodyEnc.rawList b⟩).1.data,
         (bc.B.callList ⟨true, Method.GET, "/bitcoin/receivers", bc.Key,
            bitcoinreceiver.BodyEnc.rawList b⟩).1.listMeta,
         (bc.B.callList ⟨true, Method.GET, "/bitcoin/receivers", bc.Key,
            bitcoinreceiver.BodyEnc.rawList b⟩).2,
         [⟨true, Method.GET, "/bitcoin/receivers", bc.Key,
            bitcoinreceiver.BodyEnc.rawList b⟩]⟩ := by
  refine ⟨rfl, ?_, ?_, rfl⟩
  · simp [bitcoinreceiver.Client.Get, format_receivers_id]
  · simp [bitcoinreceiver.Client.Update, format_receivers_id]

/-- C6: for every operation of both clients (bitcoin receiver New, Get,
Update and card New, Get, Update, Del), the operation returns exactly the
error value of the single backend call it issues, together with the
decoded result record; backend errors are never inspected or
transformed. -/
theorem C6_error_propagation (c : card.Client) (bc : bitcoinreceiver.Client)
    (id rid : String) (p : card.CardParams) (sn sg : String)
    (rp : Option bitcoinreceiver.BitcoinReceiverParams)
    (up : Option bitcoinreceiver.BitcoinReceiverUpdateParams)
    (hn : card.newPath p = Except.ok sn) (hg : card.getPath id p = Except.ok sg) :
    ((c.New (some p)).err
        = (c.B.call ⟨true, Method.POST, sn, c.Key,
            card.BodyEnc.cardSourceOrExternalAccount p⟩).2 ∧
      (c.New (some p)).card
        = some (c.B.call ⟨true, Method.POST, sn, c.Key,
            card.BodyEnc.cardSourceOrExternalAccount p⟩).1) ∧
    ((c.Get id (some p)).err
        = (c.B.call ⟨false, Method.GET, sg, c.Key, card.BodyEnc.genericForm p⟩).2 ∧
      (c.Get id (some p)).card
        = some (c.B.call ⟨false, Method.GET, sg, c.Key, card.BodyEnc.genericForm p⟩).1) ∧
    ((c.Update id (some p)).err
        = (c.B.call ⟨false, Method.POST, sg, c.Key, card.BodyEnc.genericForm p⟩).2 ∧
      (c.Update id (some p)).card
        = some (c.B.call ⟨false, Method.POST, sg, c.Key, card.BodyEnc.genericForm p⟩).1) ∧
    ((c.Del id (some p)).err
        = (c.B.call ⟨false, Method.DELETE, sg, c.Key, card.BodyEnc.genericForm p⟩).2 ∧
      (c.Del id (some p)).card
        = some (c.B.call ⟨false, Method.DELETE, sg, c.Key, card.BodyEnc.genericForm p⟩).1) ∧
    ((bc.New rp).err
        = (bc.B.call ⟨false, Method.POST, "/bitcoin/receivers", bc.Key,
            bitcoinreceiver.BodyEnc.params rp⟩).2 ∧
      (bc.New rp).receiver
        = some (bc.B.call ⟨false, Method.POST, "/bitcoin/receivers", bc.Key,
            bitcoinreceiver.BodyEnc.params rp⟩).1) ∧
    ((bc.Get rid rp).err
        = (bc.B.call ⟨false, Method.GET, "/bitcoin/receivers/" ++ percentEncode rid, bc.Key,
            bitcoinreceiver.BodyEnc.params rp⟩).2 ∧
      (bc.Get rid rp).receiver
        = some (bc.B.call ⟨false, Method.GET, "/bitcoin/receivers/" ++ percentEncode rid, bc.Key,
            bitcoinreceiver.BodyEnc.params rp⟩).1) ∧
    ((bc.Update rid up).err
        = (bc.B.call ⟨false, Method.POST, "/bitcoin/receivers/" ++ percentEncode rid, bc.Key,
            bitcoinreceiver.BodyEnc.updateParams up⟩).2 ∧
      (bc.Update rid up).receiver
        = some (bc.B.call ⟨false, Method.POST, "/bitcoin/receivers/" ++ percentEncode rid, bc.Key,
            bitcoinreceiver.BodyEnc.updateParams up⟩).1) := by
  refine ⟨⟨?_, ?_⟩, ⟨?_, ?_⟩, ⟨?_, ?_⟩, ⟨?_, ?_⟩, ⟨rfl, rfl⟩, ⟨?_, ?_⟩, ⟨?_, ?_⟩⟩
  · rw [card.New_ok c p sn hn]
  · rw [card.New_ok c p sn hn]
  · rw [card.Get_ok c id p sg hg]
  · rw [card.Get_ok c id p sg hg]
  · rw [card.Update_ok c id p sg hg]
  · rw [card.Update_ok c id p sg hg]
  · rw [card.Del_ok c id p sg hg]
  · rw [card.Del_ok c id p sg hg]
  · simp [bitcoinreceiver.Client.Get, format_receivers_id]
  · simp [bitcoinreceiver.Client.Get, format_receivers_id]
  · simp [bitcoinreceiver.Client.Update, format_receivers_id]
  · simp [bitcoinreceiver.Client.Update, format_receivers_id]

/-- Witness for C6 at concrete inputs: over a backend that fails every
call, card Get and receiver New return exactly the backend error values. -/
theorem C6_error_propagation_witness :
    (cardErrClient.Get "card_abc" (some pcCust)).err = some (GoError.backendErr 7) ∧
    (recvErrClient.New none).err = some (GoError.backendErr 9) := by
  have h := C6_error_propagation cardErrClient recvErrClient "card_abc" "btcrcv_1"
    pcCust "/customers/cus_123/sources" "/customers/cus_123/sources/card_abc"
    none none (by rfl) (by rfl)
  exact ⟨h.2.1.1, h.2.2.2.2.1.1⟩

/-- C8: card New, and no other card operation, serializes its request body
through the specialized card-source/external-account serialization into a
raw form-values body passed to the raw-call primitive; Get, Update and Del
pass the parameter object to the generic Call serialization, and the List
page query passes only the pagination form values to the raw-call
primitive. -/
theorem C8_new_serialization (c : card.Client) (id : String) (b : FormValues)
    (p : card.CardParams) (lp : card.CardListParams) (sn sg sl : String)
    (hn : card.newPath p = Except.ok sn) (hg : card.getPath id p = Except.ok sg)
    (hl : card.listPath (some lp) = Except.ok sl) :
    (c.New (some p)).calls
      = [⟨true, Method.POST, sn, c.Key, card.BodyEnc.cardSourceOrExternalAccount p⟩] ∧
    (c.Get id (some p)).calls
      = [⟨false, Method.GET, sg, c.Key, card.BodyEnc.genericForm p⟩] ∧
    (c.Update id (some p)).calls
      = [⟨false, Method.POST, sg, c.Key, card.BodyEnc.genericForm p⟩] ∧
    (c.Del id (some p)).calls
      = [⟨false, Method.DELETE, sg, c.Key, card.BodyEnc.genericForm p⟩] ∧
    ((c.List (some lp)).firstAdvance b).calls
      = [⟨true, Method.GET, sl, c.Key, card.BodyEnc.rawList b⟩] := by
  refine ⟨?_, ?_, ?_, ?_, ?_⟩
  · rw [card.New_ok c p sn hn]
  · rw [card.Get_ok c id p sg hg]
  · rw [card.Update_ok c id p sg hg]
  · rw [card.Del_ok c id p sg hg]
  · rw [card.List_ok c (some lp) sl b hl]

/-- Witness for C8 at concrete inputs: the single request issued by New
carries the specialized card-source body. -/
theorem C8_new_serialization_witness :
    (cardClient0.New (some pcCust)).calls
      = [⟨true, Method.POST, "/customers/cus_123/sources", "sk_test",
          card.BodyEnc.cardSourceOrExternalAccount pcCust⟩] := by
  have h := C8_new_serialization cardClient0 "card_abc" [] pcCust lpCust
    "/customers/cus_123/sources" "/customers/cus_123/sources/card_abc"
    "/customers/cus_123/sources?object=card" (by rfl) (by rfl) (by rfl)
  exact h.1

/-- C9: under a stable backend (the GET on the path derived from the id of
the record stored by the creating POST returns exactly that record), for
every valid parameter object, the record returned by card New and the
record subsequently returned by Get with the same card id are equal. -/
theorem C9_roundtrip (c : card.Client) (p : card.CardParams) (sn : String)
    (hn : card.newPath p = Except.ok sn)
    (hstable : ∀ sg : String,
      card.getPath (c.B.call ⟨true, Method.POST, sn, c.Key,
          card.BodyEnc.cardSourceOrExternalAccount p⟩).1.ID p = Except.ok sg →
      (c.B.call ⟨true, Method.POST, sn, c.Key,
          card.BodyEnc.cardSourceOrExternalAccount p⟩).2 = none →
      c.B.call ⟨false, Method.GET, sg, c.Key, card.BodyEnc.genericForm p⟩
        = ((c.B.call ⟨true, Method.POST, sn, c.Key,
            card.BodyEnc.cardSourceOrExternalAccount p⟩).1, none))
    (card0 : card.Card)
    (hnew : (c.New (some p)).card = some card0)
    (hok : (c.New (some p)).err = none) :
    (c.Get card0.ID (some p)).card = some card0 ∧
    (c.Get card0.ID (some p)).err = none := by
  rw [card.New_ok c p sn hn] at hnew hok
  have hc0 : (c.B.call ⟨true, Method.POST, sn, c.Key,
      card.BodyEnc.cardSourceOrExternalAccount p⟩).1 = card0 := by
    simpa using hnew
  have he0 : (c.B.call ⟨true, Method.POST, sn, c.Key,
      card.BodyEnc.cardSourceOrExternalAccount p⟩).2 = none := by
    simpa using hok
  obtain ⟨sg, hsg⟩ :=
    card.getPath_ok_of_owner card0.ID p (card.owner_of_newPath_ok p sn hn)
  have hsg2 : card.getPath (c.B.call ⟨true, Method.POST, sn, c.Key,
      card.BodyEnc.cardSourceOrExternalAccount p⟩).1.ID p = Except.ok sg := by
    rw [hc0]; exact hsg
  have hB := hstable sg hsg2 he0
  rw [card.Get_ok c card0.ID p sg hsg]
  refine ⟨?_, ?_⟩
  · simp [hB, hc0]
  · simp [hB]

/-- Witness for C9 at concrete inputs: over the concrete stable backend,
the record created for customer cus_123 and the record fetched by Get on
its id are equal. -/
theorem C9_roundtrip_witness :
    (card9Client.Get card9.ID (some pcCust)).card = some card9 ∧
    (card9Client.Get card9.ID (some pcCust)).err = none := by
  have h := C9_roundtrip card9Client pcCust "/customers/cus_123/sources" (by rfl)
    (by
      intro sg hsg h2
      have he : card.getPath (card9Client.B.call ⟨true, Method.POST,
          "/customers/cus_123/sources", card9Client.Key,
          card.BodyEnc.cardSourceOrExternalAccount pcCust⟩).1.ID pcCust
          = Except.ok "/customers/cus_123/sources/card_abc" := by rfl
      rw [he] at hsg
      injection hsg with heq
      subst heq
      rfl)
    card9 (by rfl) (by rfl)
  exact h
